import Mathlib

/-!
Verification of `mio-signals` (Rust) against its specification.

The development shallowly embeds the crate's data model and the pure
decision logic of its platform backends:

* `src/lib.rs` — `Signal`, `SignalSet` (a `NonZeroU8` bit set),
  `SignalSetIter`;
* `src/sys/mod.rs` — `raw_signal` / `from_raw_signal`;
* `src/sys/kqueue.rs` — `Signals::new`, `Signals::receive`,
  `ignore_signals` / `unignore_signals`, `Drop`;
* `src/sys/signalfd.rs` — `Signals::receive`, `block_signals` /
  `unblock_signals`, `Drop`;
* `src/sys/pipe.rs` — `signal_handler`.

Machine integers (`u8`, `c_int`, `uintptr_t`) are modelled as `Nat` / `Int`
with explicit wrapping where a cast occurs.  Syscall outcomes are modelled
as explicit inputs to the embedded functions; `panic!` / `unreachable!` /
`debug_assert!` are modelled as a dedicated `panicked` result constructor.
-/

namespace MioSignals

/-- The `Signal` enum from `src/lib.rs` (variants in declaration order:
`Interrupt`, `Terminate`, `Quit`).  The snapshot's `lib.rs` declares exactly
these three variants; `tests/cleanup.rs` and `src/sys/pipe.rs` match on
exactly these three as well. -/
inductive Signal where
  | Interrupt
  | Terminate
  | Quit
deriving DecidableEq, Repr, Fintype

/-- Bit constant `INTERRUPT` from `src/lib.rs`. -/
def INTERRUPT : Nat := 1
/-- Bit constant `QUIT = 1 << 1` from `src/lib.rs`. -/
def QUIT : Nat := 2
/-- Bit constant `TERMINATE = 1 << 2` from `src/lib.rs`. -/
def TERMINATE : Nat := 4

/-- Model of `SignalSet` from `src/lib.rs`: a wrapper around a `NonZeroU8`.
`val` models the content of the `u8`; the non-zero property is *not* baked
into the type (the Rust code constructs values with
`NonZeroU8::new_unchecked`), it is proved for all reachable values. -/
structure SignalSet where
  val : Nat
deriving DecidableEq, Repr

/-- Model of `SignalSet::all()`: `INTERRUPT | QUIT | TERMINATE`. -/
def SignalSet.all : SignalSet := ⟨INTERRUPT ||| QUIT ||| TERMINATE⟩

/-- Model of `From<Signal> for SignalSet`: the singleton set of a signal. -/
def SignalSet.ofSignal (signal : Signal) : SignalSet :=
  ⟨match signal with
    | .Interrupt => INTERRUPT
    | .Quit => QUIT
    | .Terminate => TERMINATE⟩

/-- Model of `u8::count_ones` restricted to the 8 bits of a `u8`
(arguments are always `< 256` in this development). -/
def countOnes8 (n : Nat) : Nat :=
  n % 2 + n / 2 % 2 + n / 4 % 2 + n / 8 % 2 +
    n / 16 % 2 + n / 32 % 2 + n / 64 % 2 + n / 128 % 2

/-- Model of `SignalSet::len`: `self.0.get().count_ones()`. -/
def SignalSet.len (s : SignalSet) : Nat := countOnes8 s.val

/-- Model of `SignalSet::contains` (after the `Into<SignalSet>` conversion):
`(self.0.get() & other.0.get()) == other.0.get()`. -/
def SignalSet.contains (s other : SignalSet) : Bool :=
  (s.val &&& other.val) == other.val

/-- Model of `BitOr for SignalSet`: bitwise or of the underlying integers. -/
def SignalSet.or (s rhs : SignalSet) : SignalSet := ⟨s.val ||| rhs.val⟩

/-- Model of `BitOr<Signal> for SignalSet`: `self | Into::<SignalSet>::into(rhs)`. -/
def SignalSet.orSignal (s : SignalSet) (rhs : Signal) : SignalSet :=
  s.or (SignalSet.ofSignal rhs)

/-- Model of `BitOr for Signal` producing a `SignalSet`:
`Into::<SignalSet>::into(self) | rhs`. -/
def Signal.orSignal (s rhs : Signal) : SignalSet :=
  (SignalSet.ofSignal s).orSignal rhs

/-- The `SignalSet` values reachable through the public constructors:
`SignalSet::all()`, `From<Signal>`, and the `BitOr` implementations
(which all reduce to `SignalSet.or` after `Into` conversions). -/
inductive SignalSet.Reachable : SignalSet → Prop where
  | all : Reachable SignalSet.all
  | ofSignal (s : Signal) : Reachable (SignalSet.ofSignal s)
  | or (a b : SignalSet) : Reachable a → Reachable b → Reachable (a.or b)

/-- Fuel-based helper computing `u8::trailing_zeros`. -/
def tzAux : Nat → Nat → Nat
  | 0, _ => 0
  | fuel + 1, n => if n % 2 = 1 then 0 else 1 + tzAux fuel (n / 2)

/-- Model of `u8::trailing_zeros`: index of the lowest set bit, `8` for `0`. -/
def trailingZeros8 (n : Nat) : Nat := tzAux 8 (n % 256)

/-- One step of `Iterator for SignalSetIter::next` from `src/lib.rs`:
computes `n = self.0.trailing_zeros()`, maps `0/1/2` to
`Interrupt`/`Quit`/`Terminate` (any other count to `None`), and on success
clears bit `n` from the state (`self.0 &= !(1 << n)`; the `u8` complement
of `1 << n` is `255 ^^^ (1 <<< n)`).  Returns the yielded item and the new
iterator state. -/
def iterNext (st : Nat) : Option Signal × Nat :=
  match trailingZeros8 st with
  | 0 => (some Signal.Interrupt, st &&& (255 ^^^ (1 <<< 0)))
  | 1 => (some Signal.Quit, st &&& (255 ^^^ (1 <<< 1)))
  | 2 => (some Signal.Terminate, st &&& (255 ^^^ (1 <<< 2)))
  | _ => (none, st)

/-- Collect the items yielded by repeatedly calling `iterNext`, with fuel.
Eight steps always exhaust a `u8` state (each successful step clears a
distinct one of the bits `0`, `1`, `2`; all other states yield `none`). -/
def iterElemsAux : Nat → Nat → List Signal
  | 0, _ => []
  | fuel + 1, st =>
    match iterNext st with
    | (none, _) => []
    | (some s, st') => s :: iterElemsAux fuel st'

/-- The sequence of signals produced by iterating a `SignalSet`
(`IntoIterator for SignalSet` hands `SignalSetIter` a *copy* of the
underlying `u8`, so the set itself is never mutated). -/
def SignalSet.elems (s : SignalSet) : List Signal := iterElemsAux 8 s.val

/-! ## Raw signal mapping (`src/sys/mod.rs`) -/

/-- Constant `libc::SIGINT` (value `2` on every platform this crate supports). -/
def SIGINT : Int := 2
/-- Constant `libc::SIGQUIT` (value `3` on every platform this crate supports). -/
def SIGQUIT : Int := 3
/-- Constant `libc::SIGTERM` (value `15` on every platform this crate supports). -/
def SIGTERM : Int := 15
/-- Constant `libc::SIGSTOP` (value `19` on Linux), used by the crate's own tests as
an example of an unsupported signal number. -/
def SIGSTOP : Int := 19
/-- Constant `libc::EINTR` (value `4`). -/
def EINTR : Nat := 4

/-- Model of `raw_signal` from `src/sys/mod.rs`: convert a `Signal` into a Unix
signal number.  The snapshot's `sys/mod.rs` also lists arms for
`Signal::User1` / `Signal::User2`, variants that the snapshot's `lib.rs`
`Signal` enum does not declare (version skew in the sources); the
embedding follows the declared enum, matching `src/sys/unix.rs`,
`src/sys/pipe.rs` and `tests/cleanup.rs`, which all map exactly these
three variants. -/
def raw_signal (signal : Signal) : Int :=
  match signal with
  | .Interrupt => SIGINT
  | .Quit => SIGQUIT
  | .Terminate => SIGTERM

/-- Model of `from_raw_signal` from `src/sys/mod.rs`: convert a raw Unix signal
number into a `Signal`; unknown numbers map to `none`.  (The Rust `match`
on integer constants is an if-chain.) -/
def from_raw_signal (n : Int) : Option Signal :=
  if n = SIGINT then some Signal.Interrupt
  else if n = SIGQUIT then some Signal.Quit
  else if n = SIGTERM then some Signal.Terminate
  else none

/-- Rust's `as libc::c_int` cast applied to an unsigned value
(`uintptr_t` in `kqueue.rs`, `u32` in `signalfd.rs`): truncate to 32 bits
and reinterpret as a signed 32-bit integer. -/
def castToCInt (n : Nat) : Int :=
  if n % 2 ^ 32 < 2 ^ 31 then ((n % 2 ^ 32 : Nat) : Int)
  else ((n % 2 ^ 32 : Nat) : Int) - 2 ^ 32

/-! ## kqueue backend (`src/sys/kqueue.rs`) -/

/-- Constant `libc::EVFILT_SIGNAL` (value `-6` on FreeBSD and macOS; the numeric
value is irrelevant to the proofs). -/
def EVFILT_SIGNAL : Int := -6

/-- Outcome of the single `kevent(2)` poll issued by
`kqueue::Signals::receive` (`nevents = 1`, zero timeout): an OS error
(`n_events = -1` with an errno), no event pending, exactly one event
(with its `filter` and `ident` fields), or an out-of-contract event count
(the `_ => unreachable!` arm). -/
inductive KeventPollResult where
  | err (errno : Nat)
  | noEvent
  | oneEvent (filter : Int) (ident : Nat)
  | manyEvents (n : Nat)
deriving DecidableEq, Repr

/-- Result of a backend `receive()` call: `Ok(Option<Signal>)`, an
`io::Error` carrying an errno, or a panic (`unreachable!` /
`debug_assert!` failure). -/
inductive RecvResult where
  | ok (s : Option Signal)
  | err (errno : Nat)
  | panicked (msg : String)
deriving DecidableEq, Repr

/-- Model of `kqueue::Signals::receive` from `src/sys/kqueue.rs`, as a function of
the `kevent(2)` poll outcome.  `debugAssertions` tells whether the crate
is compiled with debug assertions (`debug_assert_eq!(filter,
libc::EVFILT_SIGNAL)` panics only then).  On exactly one event the code
returns `Ok(from_raw_signal(kevent.ident as libc::c_int))` — note that an
ident that fails to decode therefore becomes `Ok(None)`. -/
def kqueueReceive (debugAssertions : Bool) (r : KeventPollResult) : RecvResult :=
  match r with
  | .err errno => .err errno
  | .noEvent => .ok none
  | .oneEvent filter ident =>
    if debugAssertions && !(filter == EVFILT_SIGNAL) then
      .panicked "assertion failed: filter == EVFILT_SIGNAL"
    else
      .ok (from_raw_signal (castToCInt ident))
  | .manyEvents _ => .panicked "unexpected number of events"

/-- Outcome of the `kevent(2)` registration call inside
`register_signals`. -/
inductive KeventRegResult where
  | ok
  | err (errno : Nat)
deriving DecidableEq, Repr

/-- Model of `register_signals` from `src/sys/kqueue.rs`, as a function of the
`kevent(2)` registration outcome: success on `ok`; on failure, `EINTR` is
treated as success (FreeBSD guarantees the changelist was applied), every
other errno is returned as the error. -/
def register_signals (r : KeventRegResult) : Except Nat Unit :=
  match r with
  | .ok => .ok ()
  | .err errno => if errno = EINTR then .ok () else .error errno

/-- The `kqueue::Signals` struct: the private kqueue descriptor and the
signal set it was constructed with. -/
structure KqSignals where
  kq : Nat
  signals : SignalSet
deriving DecidableEq, Repr

/-- Result of `kqueue::Signals::new` together with the descriptors closed
(via `Drop for Signals`) before the call returned. -/
structure KqNewResult where
  result : Except Nat KqSignals
  closedFds : List Nat
deriving Repr

/-- Model of `kqueue::Signals::new` from `src/sys/kqueue.rs`, as a function of the
three syscall outcomes it chains:
`new_kqueue().map(|kq| Signals { kq, signals })`
`.and_then(|kq| register_signals(kq.kq, signals).map(|()| kq))`
`.and_then(|kq| ignore_signals(signals).map(|()| kq))`.
When `register_signals` or `ignore_signals` fails, the `Signals` value
owned by the failing `and_then` closure is dropped, and `Drop for
Signals` closes the kqueue descriptor; `closedFds` records this. -/
def kqueueNew (signals : SignalSet) (kqRes : Except Nat Nat)
    (regRes : KeventRegResult) (ignRes : Except Nat Unit) : KqNewResult :=
  match kqRes with
  | .error errno => ⟨.error errno, []⟩
  | .ok kq =>
    match register_signals regRes with
    | .error errno => ⟨.error errno, [kq]⟩
    | .ok _ =>
      match ignRes with
      | .error errno => ⟨.error errno, [kq]⟩
      | .ok _ => ⟨.ok ⟨kq, signals⟩, []⟩

/-! ## Process-wide signal disposition -/

/-- A signal's process-wide disposition as set through `sigaction(2)`:
`SIG_DFL`, `SIG_IGN`, or a specific handler function (identified by an
abstract code). -/
inductive Disposition where
  | dfl
  | ign
  | handler (code : Nat)
deriving DecidableEq, Repr

/-- Model of `ignore_signals` from `src/sys/kqueue.rs`: `sigaction` with
`SIG_IGN` for every signal in the set (the prior disposition is discarded
— `sigaction` is called with a null `oldact`). -/
def ignore_signals (d : Signal → Disposition) (signals : SignalSet) :
    Signal → Disposition :=
  fun s => if signals.contains (SignalSet.ofSignal s) then .ign else d s

/-- Model of `unignore_signals` from `src/sys/kqueue.rs` (run by `Drop for
Signals`): `sigaction` with `SIG_DFL` — "resetting all signal handlers to
the default", not to the pre-construction value. -/
def unignore_signals (d : Signal → Disposition) (signals : SignalSet) :
    Signal → Disposition :=
  fun s => if signals.contains (SignalSet.ofSignal s) then .dfl else d s

/-- Model of `block_signals` from `src/sys/signalfd.rs`:
`pthread_sigmask(SIG_BLOCK, set)` adds the set to the blocked mask. -/
def block_signals (blocked : Signal → Bool) (signals : SignalSet) :
    Signal → Bool :=
  fun s => if signals.contains (SignalSet.ofSignal s) then true else blocked s

/-- Model of `unblock_signals` from `src/sys/signalfd.rs` (run by `Drop for
Signals`): `pthread_sigmask(SIG_UNBLOCK, set)` removes the set from the
blocked mask, whether or not its signals were blocked before
construction. -/
def unblock_signals (blocked : Signal → Bool) (signals : SignalSet) :
    Signal → Bool :=
  fun s => if signals.contains (SignalSet.ofSignal s) then false else blocked s

/-! ## signalfd backend (`src/sys/signalfd.rs`) -/

/-- Constant `size_of::<libc::signalfd_siginfo>()`: 128 bytes, fixed by the Linux
UAPI. -/
def INFO_SIZE : Nat := 128

/-- Outcome of one `read(2)` on the signalfd descriptor, split the way
`signalfd::Signals::receive` matches it: `-1` with
`ErrorKind::WouldBlock`, `-1` with `ErrorKind::Interrupted`, `-1` with
any other error, or a successful read of `n` bytes whose buffer holds
`ssi_signo` (a `u32`). -/
inductive ReadOutcome where
  | wouldBlock
  | interrupted
  | otherErr (errno : Nat)
  | bytes (n : Nat) (signo : Nat)
deriving DecidableEq, Repr

/-- Result of `signalfd::Signals::receive`: as `RecvResult`, plus
`noMoreInput` for the artificial case in which the modelled stream of
read outcomes runs out while the retry loop is still spinning. -/
inductive SfdResult where
  | ok (s : Option Signal)
  | err (errno : Nat)
  | panicked (msg : String)
  | noMoreInput
deriving DecidableEq, Repr

/-- Model of `signalfd::Signals::receive` from `src/sys/signalfd.rs`, as a
function of the successive `read(2)` outcomes its loop consumes:
would-block → `Ok(None)`; interrupted → `continue` (retry with the next
outcome); any other error → propagate; a read of exactly `INFO_SIZE`
bytes → `Ok(from_raw_signal(info.ssi_signo as libc::c_int))`; any other
byte count → `unreachable!`. -/
def signalfdReceive : List ReadOutcome → SfdResult
  | [] => .noMoreInput
  | .wouldBlock :: _ => .ok none
  | .interrupted :: rest => signalfdReceive rest
  | .otherErr errno :: _ => .err errno
  | .bytes n signo :: _ =>
    if n = INFO_SIZE then .ok (from_raw_signal (castToCInt signo))
    else .panicked "read an incorrect amount of bytes from signalfd"

/-! ## pipe backend (`src/sys/pipe.rs`) -/

/-- The process-wide atomic descriptor table of `src/sys/pipe.rs`
(`SIGINT_FD`, `SIGTERM_FD`, `SIGQUIT_FD`); `-1` means unset. -/
structure PipeGlobals where
  sigintFd : Int
  sigtermFd : Int
  sigquitFd : Int
deriving DecidableEq, Repr

/-- Table lookup performed by the handler's `match raw_signal`:
the descriptor registered for a raw signal number, `-1` for any
unsupported number (`_ => -1`). -/
def handlerFdFor (g : PipeGlobals) (raw : Int) : Int :=
  if raw = SIGINT then g.sigintFd
  else if raw = SIGTERM then g.sigtermFd
  else if raw = SIGQUIT then g.sigquitFd
  else -1

/-- Model of `c_int::to_ne_bytes` on the supported (little-endian) targets: the
four bytes of the 32-bit two's-complement representation, least
significant first. -/
def toNeBytes (n : Int) : List Nat :=
  let u := (n % 2 ^ 32).toNat
  [u % 256, u / 256 % 256, u / 65536 % 256, u / 16777216 % 256]

/-- Model of `signal_handler` from `src/sys/pipe.rs`, returning the single
`write(2)` it performs — `some (fd, bytes)` — or `none` when it returns
without writing.  The handler looks the incoming raw signal number up in
the global table (unsupported numbers give `-1`), returns early when the
resulting descriptor is `-1`, and otherwise writes the signal number's
native-endian byte pattern to that descriptor.  The `write` result is
bound to `_` in the source: the handler's return type carries no error
channel, so a write failure is unobservable to it. -/
def signal_handler (g : PipeGlobals) (raw : Int) : Option (Int × List Nat) :=
  let fd :=
    if raw = SIGINT then g.sigintFd
    else if raw = SIGTERM then g.sigtermFd
    else if raw = SIGQUIT then g.sigquitFd
    else -1
  if fd = -1 then none
  else some (fd, toNeBytes raw)

/-! ## Helper lemmas -/

/-- Every reachable `SignalSet` has a non-zero value using only the three
low bits: the constructors start from `all` (value 7) or a singleton
(values 1, 2, 4) and `or` preserves both properties. -/
theorem SignalSet.Reachable.val_bounds {s : SignalSet} (h : s.Reachable) :
    s.val ≠ 0 ∧ s.val < 8 := by
  induction h with
  | all => exact ⟨by decide, by decide⟩
  | ofSignal sig => cases sig <;> exact ⟨by decide, by decide⟩
  | or a b _ _ iha ihb =>
    have key : ∀ x < 8, ∀ y < 8, x ≠ 0 → (x ||| y ≠ 0 ∧ x ||| y < 8) := by decide
    exact key a.val iha.2 b.val ihb.2 iha.1

/-! ## Claim theorems -/

/-- Claim C7: for every `SignalSet` value reachable through the public
constructors (`SignalSet::all()`, `From<Signal>`, and the `BitOr`
implementations), the underlying integer is never zero, so an empty
`SignalSet` is not representable. -/
theorem signalSet_reachable_nonzero (s : SignalSet) (h : s.Reachable) :
    s.val ≠ 0 :=
  h.val_bounds.1

/-- Witness for claim C7 at the concrete set `SignalSet::all()`. -/
theorem signalSet_reachable_nonzero_witness : SignalSet.all.val ≠ 0 :=
  signalSet_reachable_nonzero SignalSet.all SignalSet.Reachable.all

/-- Claim C9: for every `Signal` value `sig`, the singleton set
`SignalSet::from(sig)` contains `sig` and has length 1. -/
theorem signalSet_from_signal_singleton :
    ∀ sig : Signal,
      (SignalSet.ofSignal sig).contains (SignalSet.ofSignal sig) = true ∧
      (SignalSet.ofSignal sig).len = 1 := by
  decide

set_option maxRecDepth 16384 in
/-- Claim C8: iterating a (reachable) `SignalSet` yields exactly the
signals it contains, each exactly once, with as many items as `len()`;
and once the iterator is exhausted it stays exhausted (`next` leaves the
state untouched when it returns `None`, so every later call returns
`None` again).  The set itself is never mutated: `IntoIterator` hands the
iterator a copy of the underlying integer, so `elems` is a pure function
of the set and a second iteration trivially yields the same sequence. -/
theorem signalSet_iter_spec (s : SignalSet) (h : s.Reachable) :
    s.elems.Nodup ∧
    (∀ sig : Signal,
      sig ∈ s.elems ↔ s.contains (SignalSet.ofSignal sig) = true) ∧
    s.elems.length = s.len ∧
    (∀ st : Nat, st < 256 → (iterNext st).1 = none → iterNext st = (none, st)) := by
  have key : ∀ v : Nat, v < 8 → v ≠ 0 →
      (SignalSet.mk v).elems.Nodup ∧
      (∀ sig : Signal,
        sig ∈ (SignalSet.mk v).elems ↔
          (SignalSet.mk v).contains (SignalSet.ofSignal sig) = true) ∧
      (SignalSet.mk v).elems.length = (SignalSet.mk v).len := by
    decide
  have exh : ∀ st : Nat, st < 256 →
      (iterNext st).1 = none → iterNext st = (none, st) := by
    decide
  obtain ⟨hne, hlt⟩ := h.val_bounds
  obtain ⟨v⟩ := s
  exact ⟨(key v hlt hne).1, (key v hlt hne).2.1, (key v hlt hne).2.2, exh⟩

/-- Witness for claim C8 at the concrete set `SignalSet::all()`. -/
theorem signalSet_iter_spec_witness :
    SignalSet.all.elems.length = SignalSet.all.len ∧
    SignalSet.all.elems.Nodup := by
  have h := signalSet_iter_spec SignalSet.all SignalSet.Reachable.all
  exact ⟨h.2.2.1, h.1⟩

/-- Claim C10: although the documented order is unspecified,
`SignalSetIter::next` always yields the remaining member with the lowest
set bit, so every reachable set iterates in the fixed order `Interrupt`,
`Quit`, `Terminate` restricted to its members.  `elems` is a pure
function of the set, so two iterations of equal sets yield identical
sequences by congruence. -/
theorem signalSet_iter_order (s : SignalSet) (h : s.Reachable) :
    s.elems = [Signal.Interrupt, Signal.Quit, Signal.Terminate].filter
      (fun sig => s.contains (SignalSet.ofSignal sig)) := by
  have key : ∀ v : Nat, v < 8 → v ≠ 0 →
      (SignalSet.mk v).elems =
        [Signal.Interrupt, Signal.Quit, Signal.Terminate].filter
          (fun sig => (SignalSet.mk v).contains (SignalSet.ofSignal sig)) := by
    decide
  obtain ⟨hne, hlt⟩ := h.val_bounds
  obtain ⟨v⟩ := s
  exact key v hlt hne

/-- Witness for claim C10 at the concrete set `Interrupt | Terminate`. -/
theorem signalSet_iter_order_witness :
    ((SignalSet.ofSignal Signal.Interrupt).or
        (SignalSet.ofSignal Signal.Terminate)).elems
      = [Signal.Interrupt, Signal.Terminate] := by
  have h := signalSet_iter_order _
    (SignalSet.Reachable.or _ _
      (SignalSet.Reachable.ofSignal Signal.Interrupt)
      (SignalSet.Reachable.ofSignal Signal.Terminate))
  rw [h]; decide

/-- Claim C2: `from_raw_signal(raw_signal(s)) == Some(s)` for every
`Signal` `s`, and `from_raw_signal(n) == None` for every signal number
`n` outside the image of `raw_signal`. -/
theorem raw_signal_round_trip (n : Int)
    (h : ∀ sig : Signal, raw_signal sig ≠ n) :
    (∀ sig : Signal, from_raw_signal (raw_signal sig) = some sig) ∧
    from_raw_signal n = none := by
  refine ⟨by decide, ?_⟩
  unfold from_raw_signal
  split_ifs with h1 h2 h3
  · exact absurd h1.symm (h Signal.Interrupt)
  · exact absurd h2.symm (h Signal.Quit)
  · exact absurd h3.symm (h Signal.Terminate)
  · rfl

/-- Witness for claim C2 at `SIGSTOP` (the unsupported number used by the
crate's own tests) and at `Signal::Interrupt`. -/
theorem raw_signal_round_trip_witness :
    from_raw_signal SIGSTOP = none ∧
    from_raw_signal (raw_signal Signal.Interrupt) = some Signal.Interrupt := by
  have h := raw_signal_round_trip SIGSTOP (by decide)
  exact ⟨h.2, h.1 Signal.Interrupt⟩

/-- Counterexample to claim C3: with debug assertions enabled, the kqueue
`receive()` on exactly one event whose ident (`SIGSTOP` = 19) does not
decode to a known `Signal` returns `Ok(None)` — it does not panic. -/
theorem kqueue_receive_unknown_ident_silent :
    kqueueReceive true (KeventPollResult.oneEvent EVFILT_SIGNAL 19)
      = RecvResult.ok none := by
  decide

/-- Claim C3 (amended): when the private queue returns exactly one event
with the expected `EVFILT_SIGNAL` filter but an ident that does not
decode to a known `Signal`, `receive()` silently returns `Ok(None)`
(in both debug and release builds); only a wrong filter trips the debug
assertion, and only an event count other than 0 or 1 panics. -/
theorem kqueue_receive_unknown_ident (d : Bool) (ident : Nat)
    (h : from_raw_signal (castToCInt ident) = none) :
    kqueueReceive d (KeventPollResult.oneEvent EVFILT_SIGNAL ident)
      = RecvResult.ok none := by
  unfold kqueueReceive
  simp [h]

/-- Witness for the amended claim C3 at ident 19 (`SIGSTOP`) in a release
build. -/
theorem kqueue_receive_unknown_ident_witness :
    kqueueReceive false (KeventPollResult.oneEvent EVFILT_SIGNAL 19)
      = RecvResult.ok none :=
  kqueue_receive_unknown_ident false 19 (by decide)

/-- Claim C4: the signalfd `receive()` maps its read outcomes exactly as
specified — would-block gives `Ok(None)`; interrupted retries the read
(the result is whatever the remaining reads produce, so an interruption
is never surfaced); a read of exactly `signalfd_siginfo` size returns the
decoded signal; any other error is propagated; any other byte count
panics (`unreachable!`). -/
theorem signalfd_receive_spec (rest : List ReadOutcome)
    (errno n signo : Nat) (hn : n ≠ INFO_SIZE) :
    signalfdReceive (ReadOutcome.wouldBlock :: rest) = SfdResult.ok none ∧
    signalfdReceive (ReadOutcome.interrupted :: rest) = signalfdReceive rest ∧
    signalfdReceive (ReadOutcome.bytes INFO_SIZE signo :: rest)
      = SfdResult.ok (from_raw_signal (castToCInt signo)) ∧
    signalfdReceive (ReadOutcome.otherErr errno :: rest) = SfdResult.err errno ∧
    signalfdReceive (ReadOutcome.bytes n signo :: rest)
      = SfdResult.panicked "read an incorrect amount of bytes from signalfd" := by
  refine ⟨rfl, rfl, ?_, rfl, ?_⟩
  · simp [signalfdReceive]
  · simp [signalfdReceive, hn]

/-- Witness for claim C4: a short read of 0 bytes (≠ 128) with a
successful full read of `SIGINT`'s record. -/
theorem signalfd_receive_spec_witness :
    (0 : Nat) ≠ INFO_SIZE ∧
    signalfdReceive [ReadOutcome.bytes INFO_SIZE 2]
      = SfdResult.ok (some Signal.Interrupt) := by
  have h := signalfd_receive_spec [] 5 0 2 (by decide)
  refine ⟨by decide, ?_⟩
  rw [h.2.2.1]; decide

/-- Claim C5: in the kqueue backend's `new`, a registration failure with
`EINTR` is treated as success (construction proceeds exactly as if the
`kevent` call had succeeded), while any other registration errno is
returned as the error with the already-created kqueue descriptor closed
(by dropping the half-built `Signals` value) before `new` returns. -/
theorem kqueue_new_spec (signals : SignalSet) (kq errno : Nat)
    (ignRes : Except Nat Unit) (he : errno ≠ EINTR) :
    kqueueNew signals (Except.ok kq) (KeventRegResult.err EINTR) ignRes
      = kqueueNew signals (Except.ok kq) KeventRegResult.ok ignRes ∧
    (kqueueNew signals (Except.ok kq) (KeventRegResult.err errno) ignRes).result
      = Except.error errno ∧
    kq ∈ (kqueueNew signals (Except.ok kq) (KeventRegResult.err errno)
        ignRes).closedFds := by
  refine ⟨rfl, ?_, ?_⟩
  · simp [kqueueNew, register_signals, he]
  · simp [kqueueNew, register_signals, he]

/-- Witness for claim C5: registration failing with `ENOMEM` (12) on
kqueue descriptor 3. -/
theorem kqueue_new_spec_witness :
    (12 : Nat) ≠ EINTR ∧
    (kqueueNew SignalSet.all (Except.ok 3) (KeventRegResult.err 12)
        (Except.ok ())).result = Except.error 12 := by
  have h := kqueue_new_spec SignalSet.all 3 12 (Except.ok ()) (by decide)
  exact ⟨by decide, h.2.1⟩

/-- Counterexample to claim C1: if `Interrupt`'s disposition was `SIG_IGN`
before construction, then constructing the kqueue backend over
`SignalSet::all()` and destroying it leaves the disposition at `SIG_DFL`
— not at its pre-construction value.  The teardown path
(`unignore_signals`) resets handlers to the default; it never saved the
prior disposition (`sigaction` is called with a null `oldact`). -/
theorem backend_teardown_counterexample :
    unignore_signals (ignore_signals (fun _ => Disposition.ign) SignalSet.all)
        SignalSet.all Signal.Interrupt = Disposition.dfl ∧
    (fun _ => Disposition.ign) Signal.Interrupt = Disposition.ign ∧
    Disposition.dfl ≠ Disposition.ign := by
  refine ⟨by decide, rfl, by decide⟩

/-- Claim C1 (amended): destroying a backend resets every signal it was
constructed over to the *default* state (kqueue: handler `SIG_DFL`;
signalfd: removed from the blocked mask) and leaves other signals
untouched; this equals the pre-construction state exactly when every
signal in the set was at the default state (default handler, not
blocked) before construction — the situation the crate's `cleanup` test
runs in. -/
theorem backend_teardown_restores_default (d : Signal → Disposition)
    (blocked : Signal → Bool) (S : SignalSet) (s : Signal)
    (hd : S.contains (SignalSet.ofSignal s) = true → d s = Disposition.dfl)
    (hb : S.contains (SignalSet.ofSignal s) = true → blocked s = false) :
    unignore_signals (ignore_signals d S) S s = d s ∧
    unblock_signals (block_signals blocked S) S s = blocked s := by
  unfold unignore_signals ignore_signals unblock_signals block_signals
  by_cases hc : S.contains (SignalSet.ofSignal s) = true
  · simp [hc, hd hc, hb hc]
  · simp [hc]

/-- Witness for the amended claim C1: all dispositions at the default
before construction over `SignalSet::all()`. -/
theorem backend_teardown_restores_default_witness :
    unignore_signals (ignore_signals (fun _ => Disposition.dfl) SignalSet.all)
        SignalSet.all Signal.Interrupt = Disposition.dfl := by
  have h := backend_teardown_restores_default (fun _ => Disposition.dfl)
    (fun _ => false) SignalSet.all Signal.Interrupt
    (fun _ => rfl) (fun _ => rfl)
  exact h.1

/-- Claim C6: the pipe backend's signal handler writes exactly the raw
signal number's fixed-width native-endian byte pattern to the descriptor
found in the global table, and writes nothing when the incoming number is
unsupported or the table entry is unset (`-1`).  An unsupported number
(such as `SIGSTOP`) produces no write for *any* table state, and with the
whole table unset no number produces a write.  The handler's return type
carries no error channel, so a failure of the write is ignored by
construction. -/
theorem pipe_signal_handler_spec (g : PipeGlobals) (raw : Int) :
    signal_handler g raw =
      (if handlerFdFor g raw = -1 then none
       else some (handlerFdFor g raw, toNeBytes raw)) ∧
    signal_handler g SIGSTOP = none ∧
    signal_handler ⟨-1, -1, -1⟩ raw = none := by
  refine ⟨rfl, ?_, ?_⟩
  · simp [signal_handler, SIGSTOP, SIGINT, SIGTERM, SIGQUIT]
  · simp [signal_handler]

end MioSignals
